import Mathlib

deriving instance DecidableEq for Except

/-!
Shallow embedding of the calendar extraction-and-classification core of
holo-wtf-api (src/calendar/calendar_parser.rs and src/calendar/models.rs).

Strings are modelled as `List Char`.  Rust's `str::to_lowercase` and
`str::trim` are modelled for the ASCII range (the vocabulary these functions
are compared against is ASCII).  Error values are the `String` messages the
Rust functions return, as `List Char`.
-/

set_option maxRecDepth 100000

namespace HoloWtfApi

/-- Substring test: models Rust `str::contains` with a string pattern. -/
def occurs (pat : List Char) : List Char → Bool
  | [] => pat.isPrefixOf ([] : List Char)
  | c :: rest => pat.isPrefixOf (c :: rest) || occurs pat rest

/-- ASCII-range model of the per-character lowercasing done by Rust
`str::to_lowercase` (65..90 are the code points of 'A'..'Z'). -/
def lowerChar (c : Char) : Char :=
  if 65 ≤ c.toNat ∧ c.toNat ≤ 90 then Char.ofNat (c.toNat + 32) else c

/-- Model of Rust `str::to_lowercase`. -/
def lowerStr (s : List Char) : List Char := s.map lowerChar

/-- Whitespace predicate modelling the characters Rust `str::trim` strips. -/
def isWS (c : Char) : Bool := c = ' ' || c = '\t' || c = '\n' || c = '\r'

/-- Model of Rust `str::trim`: strips whitespace from both ends. -/
def trim (s : List Char) : List Char :=
  ((s.dropWhile isWS).reverse.dropWhile isWS).reverse

/-- The fixed boilerplate sentence removed by the Description Sanitizer
(calendar_parser.rs line 285). -/
def boilerplate : List Char :=
  "Event Suggestion Submission form: https://forms.gle/tZwY1M19YUgUhn9i6".data

/-- Fuel-driven scan that deletes every non-overlapping, leftmost-first
occurrence of `boilerplate`: models Rust `String::replace(pat, "")`.
The fuel is spent one unit per examined position; `s.length` is enough. -/
def removeBoilerAux : Nat → List Char → List Char
  | 0, s => s
  | _ + 1, [] => []
  | fuel + 1, c :: rest =>
      if boilerplate.isPrefixOf (c :: rest) then
        removeBoilerAux fuel ((c :: rest).drop boilerplate.length)
      else
        c :: removeBoilerAux fuel rest

/-- Models `description.replace(boilerplate, "")`. -/
def removeBoiler (s : List Char) : List Char := removeBoilerAux s.length s

/-- Strips leading occurrences of the two-character sequence `'n' :: '\\'`
from a reversed string: the reversed form of Rust
`str::trim_end_matches("\\n")` (the pattern is the literal backslash-n pair,
the raw string `r"\n"` escaped once in the Rust source). -/
def trimRevNL : List Char → List Char
  | c1 :: c2 :: rest =>
      if c1 = 'n' && c2 = '\\' then trimRevNL rest else c1 :: c2 :: rest
  | s => s

/-- Models Rust `str::trim_end_matches("\\n")`. -/
def trimEscNL (s : List Char) : List Char := (trimRevNL s.reverse).reverse

/-- The Description Sanitizer (calendar_parser.rs lines 284-289): removes the
boilerplate sentence, then trims trailing escaped-newline markers. -/
def remove_form_link_from_description_and_trim (description : List Char) : List Char :=
  trimEscNL (removeBoiler description)

/-- Description built so that deleting the embedded boilerplate occurrence
splices the surrounding fragments into a fresh boilerplate occurrence. -/
def spliceDescription : List Char :=
  boilerplate.take 37 ++ boilerplate ++ boilerplate.drop 37

/-- A boilerplate-free description used to witness the amended idempotence. -/
def plainDescription : List Char := "hello, world!\\n".data

theorem removeBoilerAux_of_not_occurs (fuel : Nat) :
    ∀ s : List Char, occurs boilerplate s = false → removeBoilerAux fuel s = s := by
  induction fuel with
  | zero => intro s _; rfl
  | succ n ih =>
    intro s h
    cases s with
    | nil => rfl
    | cons c rest =>
      rw [occurs, Bool.or_eq_false_iff] at h
      simp only [removeBoilerAux, h.1, Bool.false_eq_true, if_false]
      rw [ih rest h.2]

theorem removeBoiler_of_not_occurs (s : List Char)
    (h : occurs boilerplate s = false) : removeBoiler s = s :=
  removeBoilerAux_of_not_occurs s.length s h

theorem trimRevNL_idem : ∀ s : List Char, trimRevNL (trimRevNL s) = trimRevNL s
  | [] => rfl
  | [_] => rfl
  | c1 :: c2 :: rest => by
      by_cases h : c1 = 'n' && c2 = '\\'
      · rw [show trimRevNL (c1 :: c2 :: rest) = trimRevNL rest by
          rw [trimRevNL, if_pos h]]
        exact trimRevNL_idem rest
      · have e : trimRevNL (c1 :: c2 :: rest) = c1 :: c2 :: rest := by
          rw [trimRevNL, if_neg h]
        rw [e, e]

theorem trimEscNL_idem (s : List Char) : trimEscNL (trimEscNL s) = trimEscNL s := by
  unfold trimEscNL
  rw [List.reverse_reverse, trimRevNL_idem]

/-- C1 (counterexample): on `spliceDescription`, sanitizing once yields exactly
the boilerplate sentence (deleting the embedded occurrence splices the two
fragments around it into a new occurrence), so the output contains the
boilerplate and a second application changes it again: the sanitizer is not
idempotent and the boilerplate can appear in its output. -/
theorem sanitizer_not_idempotent_on_splice :
    remove_form_link_from_description_and_trim
        (remove_form_link_from_description_and_trim spliceDescription)
      ≠ remove_form_link_from_description_and_trim spliceDescription ∧
    occurs boilerplate
        (remove_form_link_from_description_and_trim spliceDescription) = true := by
  constructor
  · decide
  · decide

/-- C1 (amended): the sanitizer never fails (it is a total function), and it is
idempotent on every description whose sanitized output no longer contains the
boilerplate sentence; removing occurrences of the boilerplate can splice the
surrounding text into a fresh occurrence, in which case the output contains the
boilerplate and idempotence fails. -/
theorem sanitizer_idempotent_of_boilerplate_free (s : List Char)
    (h : occurs boilerplate (remove_form_link_from_description_and_trim s) = false) :
    remove_form_link_from_description_and_trim
        (remove_form_link_from_description_and_trim s)
      = remove_form_link_from_description_and_trim s := by
  unfold remove_form_link_from_description_and_trim at h ⊢
  rw [removeBoiler_of_not_occurs _ h]
  exact trimEscNL_idem _

/-- Witness for the amended C1 theorem at a concrete boilerplate-free input. -/
theorem sanitizer_idempotent_witness :
    occurs boilerplate (remove_form_link_from_description_and_trim plainDescription) = false ∧
    remove_form_link_from_description_and_trim
        (remove_form_link_from_description_and_trim plainDescription)
      = remove_form_link_from_description_and_trim plainDescription :=
  ⟨by decide, sanitizer_idempotent_of_boilerplate_free plainDescription (by decide)⟩

/-! Data model (models.rs) and the format / platform / price classifiers. -/

/-- Delivery format (models.rs `LiveFormat`). -/
inductive LiveFormat
  | Online
  | Irl
  | Both
deriving DecidableEq

/-- Hosting platform (models.rs `Platform`). -/
inductive Platform
  | Niconico
  | Spwn
  | Tba
  | Youtube
  | Zan
  | Zaiko
  | Other
deriving DecidableEq

/-- Price tier (models.rs `JpyPrice`).  The Rust amounts are `i32` parsed from
digit-only captures, hence non-negative; they are modelled as `Nat`. -/
inductive JpyPrice
  | Tbd
  | Free
  | Fixed (amount : Nat)
  | MultiTier (amount : Nat)
deriving DecidableEq

/-- Character-membership test: models Rust `str::contains` with a `char`. -/
def hasChar (c : Char) : List Char → Bool
  | [] => false
  | x :: rest => x = c || hasChar c rest

/-- The "online" marker checked by the Format Classifier. -/
def onlineMarker : Char := '🌐'

/-- The "in-person seating" marker checked by the Format Classifier. -/
def seatMarker : Char := '🪑'

/-- The two-character substring the Format Classifier checks first
(calendar_parser.rs line 146): the online marker immediately followed by the
seating marker. -/
def bothMarkers : List Char := [onlineMarker, seatMarker]

/-- Error message returned by `get_format_from_string`. -/
def formatErrMsg : List Char := "Live format conversion failed".data

/-- The diagnostic line logged at calendar_parser.rs line 153 before the
format error is returned. -/
def formatErrorLogLine (platform : List Char) : List Char :=
  "Live format conversion failed, the text is ".data ++ platform

/-- The Format Classifier (calendar_parser.rs lines 145-156). -/
def get_format_from_string (platform : List Char) : Except (List Char) LiveFormat :=
  if occurs bothMarkers platform then .ok .Both
  else if hasChar onlineMarker platform then .ok .Online
  else if hasChar seatMarker platform then .ok .Irl
  else .error formatErrMsg

/-- Error message returned by `get_platform_from_tag`. -/
def platformErrMsg : List Char := "Calendar category parsing failed".data

/-- The diagnostic line logged at calendar_parser.rs line 176 before the
platform error is returned. -/
def platformErrorLogLine (tag : List Char) : List Char :=
  "Calendar category parsing failed, the text is \"".data ++ tag ++ "\"".data

/-- The Platform Classifier (calendar_parser.rs lines 158-179): lowercases the
tag and matches it exactly against the seven vocabulary entries. -/
def get_platform_from_tag (tag_string : List Char) : Except (List Char) Platform :=
  let lowercased := lowerStr tag_string
  if lowercased = "spwn".data then .ok .Spwn
  else if lowercased = "youtube".data then .ok .Youtube
  else if lowercased = "z-an".data then .ok .Zan
  else if lowercased = "zaiko".data then .ok .Zaiko
  else if lowercased = "tba".data then .ok .Tba
  else if lowercased = "nico nico douga".data then .ok .Niconico
  else if lowercased = "other".data then .ok .Other
  else .error platformErrMsg

/-- The seven-entry platform vocabulary (lowercased forms). -/
def vocabulary : List (List Char) :=
  ["spwn".data, "youtube".data, "z-an".data, "zaiko".data, "tba".data,
   "nico nico douga".data, "other".data]

/-- The classification applied to the raw CATEGORIES value by the Aggregator:
the value is trimmed at the call site (calendar_parser.rs line 27) and then
passed to `get_platform_from_tag` (line 34). -/
def categoryToPlatform (category : List Char) : Except (List Char) Platform :=
  get_platform_from_tag (trim category)

theorem hasChar_of_occurs_cons (c : Char) (p : List Char) :
    ∀ s, occurs (c :: p) s = true → hasChar c s = true := by
  intro s
  induction s with
  | nil => intro h; simp [occurs, List.isPrefixOf] at h
  | cons x rest ih =>
    intro h
    rw [occurs, Bool.or_eq_true] at h
    rw [hasChar, Bool.or_eq_true]
    rcases h with h | h
    · left
      rw [List.isPrefixOf, Bool.and_eq_true] at h
      have := h.1
      simp_all [beq_iff_eq]
    · exact Or.inr (ih h)

/-- The format token of the C2 counterexample: both markers present, but in
the reverse order. -/
def reversedMarkers : List Char := [seatMarker, onlineMarker]

/-- C2 (counterexample): the token holding the seating marker followed by the
online marker contains both markers, yet the Format Classifier returns
`Online`, not `Hybrid`: the classifier only returns `Hybrid` when the online
marker is immediately followed by the seating marker. -/
theorem format_reversed_markers_not_hybrid :
    hasChar onlineMarker reversedMarkers = true ∧
    hasChar seatMarker reversedMarkers = true ∧
    get_format_from_string reversedMarkers = .ok .Online := by
  refine ⟨by decide, by decide, ?_⟩
  rfl

/-- C2 (amended): the Format Classifier returns `Hybrid` exactly when the
online marker immediately followed by the seating marker occurs as a substring
of the token; otherwise it returns `Online` when the online marker is present
anywhere, `Irl` when only the seating marker is present anywhere, and fails
with the fixed error message (logging a diagnostic that carries the offending
token) when neither marker is present. -/
theorem format_classifier_spec (s : List Char) :
    (occurs bothMarkers s = true → get_format_from_string s = .ok .Both) ∧
    (occurs bothMarkers s = false → hasChar onlineMarker s = true →
        get_format_from_string s = .ok .Online) ∧
    (hasChar onlineMarker s = false → hasChar seatMarker s = true →
        get_format_from_string s = .ok .Irl) ∧
    (hasChar onlineMarker s = false → hasChar seatMarker s = false →
        get_format_from_string s = .error formatErrMsg ∧
        s <:+: formatErrorLogLine s) := by
  have hboth : hasChar onlineMarker s = false → occurs bothMarkers s = false := by
    intro h1
    cases e : occurs bothMarkers s with
    | false => rfl
    | true =>
      have := hasChar_of_occurs_cons onlineMarker [seatMarker] s e
      rw [h1] at this
      exact absurd this (by simp)
  refine ⟨?_, ?_, ?_, ?_⟩
  · intro h; simp [get_format_from_string, h]
  · intro h1 h2; simp [get_format_from_string, h1, h2]
  · intro h1 h2; simp [get_format_from_string, hboth h1, h1, h2]
  · intro h1 h2
    refine ⟨by simp [get_format_from_string, hboth h1, h1, h2], ?_⟩
    exact (List.suffix_append _ _).isInfix

/-- Witness for the amended C2 theorem at concrete tokens of each kind. -/
theorem format_classifier_spec_witness :
    get_format_from_string ("a🌐🪑b".data) = .ok .Both ∧
    get_format_from_string ("x🌐".data) = .ok .Online ∧
    get_format_from_string ("x🪑".data) = .ok .Irl ∧
    (get_format_from_string ("xy".data) = .error formatErrMsg ∧
      ("xy".data) <:+: formatErrorLogLine ("xy".data)) :=
  ⟨(format_classifier_spec ("a🌐🪑b".data)).1 (by decide),
   (format_classifier_spec ("x🌐".data)).2.1 (by decide) (by decide),
   (format_classifier_spec ("x🪑".data)).2.2.1 (by decide) (by decide),
   (format_classifier_spec ("xy".data)).2.2.2 (by decide) (by decide)⟩

/-- C3: the raw category tag is trimmed (at the aggregation call site) and
lowercased, then matched exactly against the seven-entry vocabulary:
`"Z-aN"`, `"z-an"` and `" Z-AN "` all map to `Zan`; classification succeeds
only when the lowercased trimmed tag is a vocabulary entry, and a tag matching
no entry fails with the fixed error message while the logged diagnostic names
the offending tag. -/
theorem platform_classifier_spec :
    categoryToPlatform ("Z-aN".data) = .ok .Zan ∧
    categoryToPlatform ("z-an".data) = .ok .Zan ∧
    categoryToPlatform (" Z-AN ".data) = .ok .Zan ∧
    (∀ t p, categoryToPlatform t = .ok p → lowerStr (trim t) ∈ vocabulary) ∧
    (∀ t, lowerStr (trim t) ∉ vocabulary →
        categoryToPlatform t = .error platformErrMsg ∧
        trim t <:+: platformErrorLogLine (trim t)) := by
  refine ⟨rfl, rfl, rfl, ?_, ?_⟩
  · intro t p h
    simp only [categoryToPlatform, get_platform_from_tag] at h
    split_ifs at h with h1 h2 h3 h4 h5 h6 h7 <;>
      (rw [show lowerStr (trim t) = _ by assumption]; decide)
  · intro t hn
    simp only [categoryToPlatform, get_platform_from_tag]
    split_ifs with h1 h2 h3 h4 h5 h6 h7
    · exact absurd (by rw [h1]; decide) hn
    · exact absurd (by rw [h2]; decide) hn
    · exact absurd (by rw [h3]; decide) hn
    · exact absurd (by rw [h4]; decide) hn
    · exact absurd (by rw [h5]; decide) hn
    · exact absurd (by rw [h6]; decide) hn
    · exact absurd (by rw [h7]; decide) hn
    · exact ⟨rfl, ⟨"Calendar category parsing failed, the text is \"".data,
        "\"".data, rfl⟩⟩

/-- Witness for the C3 theorem: its universally quantified parts applied at
concrete tags, one inside the vocabulary, one outside. -/
theorem platform_classifier_spec_witness :
    lowerStr (trim ("ZAIKO".data)) ∈ vocabulary ∧
    categoryToPlatform ("Some other".data) = .error platformErrMsg ∧
    trim ("Some other".data) <:+: platformErrorLogLine (trim ("Some other".data)) :=
  ⟨platform_classifier_spec.2.2.2.1 ("ZAIKO".data) Platform.Zaiko rfl,
   (platform_classifier_spec.2.2.2.2 ("Some other".data) (by decide)).1,
   (platform_classifier_spec.2.2.2.2 ("Some other".data) (by decide)).2⟩

/-! The Price Classifier (calendar_parser.rs lines 109-143). -/

/-- ASCII-digit model of the regex class `\d`. -/
def isDigitChar (c : Char) : Bool := 48 ≤ c.toNat && c.toNat ≤ 57

/-- Largest value of Rust `i32`. -/
def i32Max : Nat := 2147483647

/-- Value of a digit run ('0' is code point 48). -/
def natOfDigits (ds : List Char) : Nat :=
  List.foldl (fun a c => a * 10 + (c.toNat - 48)) 0 ds

/-- Models Rust `str::parse::<i32>()` on an all-digit capture: the value when
it fits `i32`, overflow failure otherwise. -/
def parseI32 (ds : List Char) : Option Nat :=
  if natOfDigits ds ≤ i32Max then some (natOfDigits ds) else none

/-- Error message returned on every price failure path. -/
def priceErrMsg : List Char := "Price conversion failed".data

/-- The substring "tba" checked at line 110. -/
def tbaTok : List Char := ['t', 'b', 'a']

/-- The substring "tbd" checked at line 110. -/
def tbdTok : List Char := ['t', 'b', 'd']

/-- The substring "free" checked at line 114. -/
def freeTok : List Char := ['f', 'r', 'e', 'e']

/-- The capture of the anchored single-tier regex `^¥(\d+)$`: the digit run
when the token is exactly the yen sign followed by one or more digits. -/
def isSingleTierTok (price : List Char) : Option (List Char) :=
  match price with
  | '¥' :: ds => if !ds.isEmpty && ds.all isDigitChar then some ds else none
  | _ => none

/-- The capture of the anchored multi-tier regex `^¥(\d+)\+$`: the digit run
when the token is exactly the yen sign, one or more digits, and a plus sign. -/
def isMultiTierTok (price : List Char) : Option (List Char) :=
  match price with
  | '¥' :: rest =>
    match rest.reverse with
    | '+' :: rds =>
        let ds := rds.reverse
        if !ds.isEmpty && ds.all isDigitChar then some ds else none
    | _ => none
  | _ => none

/-- The Price Classifier (calendar_parser.rs lines 109-143). -/
def get_price_from_string (price : List Char) : Except (List Char) JpyPrice :=
  if occurs tbaTok (lowerStr price) || occurs tbdTok (lowerStr price) then .ok .Tbd
  else if occurs freeTok (lowerStr price) then .ok .Free
  else
    match isSingleTierTok price with
    | some ds =>
      match parseI32 ds with
      | some n => .ok (.Fixed n)
      | none => .error priceErrMsg
    | none =>
      match isMultiTierTok price with
      | some ds =>
        match parseI32 ds with
        | some n => .ok (.MultiTier n)
        | none => .error priceErrMsg
      | none => .error priceErrMsg

theorem occurs_cons_eq_false (c : Char) (p : List Char) (s : List Char)
    (h : hasChar c s = false) : occurs (c :: p) s = false := by
  cases e : occurs (c :: p) s with
  | false => rfl
  | true => rw [hasChar_of_occurs_cons c p s e] at h; simp at h

/-- Characters a price token matched by either anchored regex consists of. -/
def priceTokChar (c : Char) : Bool := isDigitChar c || c = '¥' || c = '+'

theorem lowerChar_priceTokChar (x : Char) (h : priceTokChar x = true) :
    lowerChar x = x := by
  unfold priceTokChar isDigitChar at h
  simp only [Bool.or_eq_true, Bool.and_eq_true, decide_eq_true_eq] at h
  unfold lowerChar
  rw [if_neg]
  intro hc
  rcases h with (⟨hl, hr⟩ | rfl) | rfl
  · omega
  · revert hc; decide
  · revert hc; decide

theorem hasChar_lowerStr_priceTok (c : Char) (hc : c = 't' ∨ c = 'f') :
    ∀ l : List Char, l.all priceTokChar = true → hasChar c (lowerStr l) = false := by
  intro l
  induction l with
  | nil => intro _; rfl
  | cons x r ih =>
    intro h
    rw [List.all_cons, Bool.and_eq_true] at h
    rw [lowerStr, List.map_cons, hasChar, lowerChar_priceTokChar x h.1]
    have hne : ¬(x = c) := by
      intro e
      subst e
      have h1 := h.1
      rcases hc with rfl | rfl <;> revert h1 <;> decide
    rw [decide_eq_false hne, Bool.false_or]
    exact ih h.2

theorem occurs_price_markers_false (l : List Char) (hall : l.all priceTokChar = true) :
    occurs tbaTok (lowerStr l) = false ∧ occurs tbdTok (lowerStr l) = false ∧
    occurs freeTok (lowerStr l) = false :=
  ⟨occurs_cons_eq_false 't' ['b', 'a'] _ (hasChar_lowerStr_priceTok 't' (Or.inl rfl) l hall),
   occurs_cons_eq_false 't' ['b', 'd'] _ (hasChar_lowerStr_priceTok 't' (Or.inl rfl) l hall),
   occurs_cons_eq_false 'f' ['r', 'e', 'e'] _ (hasChar_lowerStr_priceTok 'f' (Or.inr rfl) l hall)⟩

/-- The exact ¥-digits token of the C6 counterexample: its value exceeds
`i32Max`. -/
def overflowTok : List Char := "¥3000000000".data

/-- C6 (counterexample): `"¥3000000000"` is exactly the currency symbol
followed by digits (the single-tier pattern captures the digit run), yet the
Price Classifier returns the conversion error, not `Fixed(3000000000)`: the
digit value does not fit `i32`, so `parse::<i32>` fails. -/
theorem price_overflow_not_fixed :
    isSingleTierTok overflowTok = some ("3000000000".data) ∧
    get_price_from_string overflowTok = .error priceErrMsg := by
  constructor
  · decide
  · decide

/-- C6 (amended): the Price Classifier performs its case-insensitive substring
checks in priority order — "tba"/"tbd" anywhere gives `Tbd` regardless of
other content, otherwise "free" anywhere gives `Free` — and then matches the
anchored shapes: exactly ¥ + digits gives `Fixed` of the digits and exactly
¥ + digits + '+' gives `MultiTier` of the digits, in both cases only when the
value fits `i32` (otherwise the conversion fails); every other token fails. -/
theorem price_classifier_spec :
    (∀ s, (occurs tbaTok (lowerStr s) = true ∨ occurs tbdTok (lowerStr s) = true) →
        get_price_from_string s = .ok .Tbd) ∧
    (∀ s, occurs tbaTok (lowerStr s) = false → occurs tbdTok (lowerStr s) = false →
        occurs freeTok (lowerStr s) = true → get_price_from_string s = .ok .Free) ∧
    (∀ ds, ds ≠ [] → ds.all isDigitChar = true →
        get_price_from_string ('¥' :: ds) =
          if natOfDigits ds ≤ i32Max then .ok (.Fixed (natOfDigits ds))
          else .error priceErrMsg) ∧
    (∀ ds, ds ≠ [] → ds.all isDigitChar = true →
        get_price_from_string ('¥' :: (ds ++ ['+'])) =
          if natOfDigits ds ≤ i32Max then .ok (.MultiTier (natOfDigits ds))
          else .error priceErrMsg) ∧
    (∀ s, occurs tbaTok (lowerStr s) = false → occurs tbdTok (lowerStr s) = false →
        occurs freeTok (lowerStr s) = false → isSingleTierTok s = none →
        isMultiTierTok s = none → get_price_from_string s = .error priceErrMsg) := by
  refine ⟨?_, ?_, ?_, ?_, ?_⟩
  · intro s h
    rcases h with h | h <;> simp [get_price_from_string, h]
  · intro s h1 h2 h3
    simp [get_price_from_string, h1, h2, h3]
  · intro ds hne hdig
    have hall : ('¥' :: ds).all priceTokChar = true := by
      simp only [List.all_cons, Bool.and_eq_true]
      refine ⟨by decide, ?_⟩
      rw [List.all_eq_true] at hdig ⊢
      intro x hx
      simp [priceTokChar, hdig x hx]
    obtain ⟨h1, h2, h3⟩ := occurs_price_markers_false _ hall
    have hsingle : isSingleTierTok ('¥' :: ds) = some ds := by
      simp [isSingleTierTok, List.isEmpty_iff, hne, hdig]
    by_cases hle : natOfDigits ds ≤ i32Max <;>
      simp [get_price_from_string, h1, h2, h3, hsingle, parseI32, hle]
  · intro ds hne hdig
    have hall : ('¥' :: (ds ++ ['+'])).all priceTokChar = true := by
      simp only [List.all_cons, List.all_append, Bool.and_eq_true]
      refine ⟨by decide, ?_, by decide⟩
      rw [List.all_eq_true] at hdig ⊢
      intro x hx
      simp [priceTokChar, hdig x hx]
    obtain ⟨h1, h2, h3⟩ := occurs_price_markers_false _ hall
    have hsingle : isSingleTierTok ('¥' :: (ds ++ ['+'])) = none := by
      have : (ds ++ ['+']).all isDigitChar = false := by
        rw [List.all_append]
        simp [show isDigitChar '+' = false from by decide]
      simp [isSingleTierTok, this]
    have hmulti : isMultiTierTok ('¥' :: (ds ++ ['+'])) = some ds := by
      simp [isMultiTierTok, List.reverse_append, List.reverse_reverse,
        List.isEmpty_iff, hne, hdig]
    by_cases hle : natOfDigits ds ≤ i32Max <;>
      simp [get_price_from_string, h1, h2, h3, hsingle, hmulti, parseI32, hle]
  · intro s h1 h2 h3 h4 h5
    simp [get_price_from_string, h1, h2, h3, h4, h5]

/-- Witness for the amended C6 theorem: the spec's own sample tokens. -/
theorem price_classifier_spec_witness :
    get_price_from_string ("¥TBD".data) = .ok .Tbd ∧
    get_price_from_string ("Free".data) = .ok .Free ∧
    get_price_from_string ("¥3500".data) = .ok (.Fixed 3500) ∧
    get_price_from_string ("¥3500+".data) = .ok (.MultiTier 3500) := by
  refine ⟨price_classifier_spec.1 ("¥TBD".data) (Or.inr (by decide)),
    price_classifier_spec.2.1 ("Free".data) (by decide) (by decide) (by decide),
    ?_, ?_⟩
  · have h := price_classifier_spec.2.2.1 ("3500".data) (by decide) (by decide)
    rw [if_pos (by decide)] at h
    rw [show ('¥' :: "3500".data) = "¥3500".data from rfl,
      show natOfDigits ("3500".data) = 3500 from by decide] at h
    exact h
  · have h := price_classifier_spec.2.2.2.1 ("3500".data) (by decide) (by decide)
    rw [if_pos (by decide)] at h
    rw [show ('¥' :: ("3500".data ++ ['+'])) = "¥3500+".data from rfl,
      show natOfDigits ("3500".data) = 3500 from by decide] at h
    exact h

/-! The Temporal Resolver (calendar_parser.rs lines 60-90).  Instants and
naive timestamps are modelled as `Int` (seconds); calendar dates as `Int`
(days).  A chrono-tz timezone is modelled by the function taken by
`and_local_timezone` composed with `naive_utc`: from a naive local timestamp
to the zero, one or two UTC instants it denotes.  The timezone database
(`tzid.parse::<Tz>()`) is a parameter mapping identifier strings to
timezones, `none` for an unparseable or unsupported identifier. -/

/-- Result of resolving a local timestamp in a timezone (chrono
`LocalResult`): `notFound` models `LocalResult::None` (a DST gap). -/
inductive LocalResult (α : Type)
  | single (t : α)
  | ambiguous (t1 t2 : α)
  | notFound

/-- A named timezone: resolution of naive local timestamps to UTC instants. -/
structure Tz where
  resolveLocal : Int → LocalResult Int

/-- One of the three `CalendarDateTime` shapes of the icalendar crate. -/
inductive CalendarDateTime
  | utc (t : Int)
  | floating (date_time : Int)
  | withTimezone (date_time : Int) (tzid : List Char)

/-- `DatePerhapsTime` of the icalendar crate: date-only or date-time. -/
inductive DatePerhapsTime
  | date (naive_date : Int)
  | dateTime (dt : CalendarDateTime)

/-- The per-event fields `get_concert_from_event` reads from the icalendar
`Event` collaborator. -/
structure Event where
  summary : Option (List Char)
  categories : Option (List Char)
  description : Option (List Char)
  attach : Option (List Char)
  start : Option DatePerhapsTime

/-- Resolution outcome: an `Ok` value, an `Err` value, or a Rust panic
(`unwrap` on a failed parse). -/
inductive Outcome (α : Type)
  | ok (a : α)
  | err (msg : List Char)
  | panicked
deriving DecidableEq

/-- The error message of every failing branch of the Temporal Resolver. -/
def startTimeErrMsg : List Char := "start time unavailable".data

/-- Resolution of a naive timestamp in the fixed-offset UTC zone
(`and_local_timezone(offset::Utc)`): always single, the same instant. -/
def utcLocalize (dt : Int) : LocalResult Int := .single dt

/-- `naive_date.and_time(00:00:00)` as seconds: midnight of the date. -/
def midnightSeconds (naive_date : Int) : Int := naive_date * 86400

/-- The Temporal Resolver (calendar_parser.rs lines 60-90).  In the
`WithTimezone` branch the source runs `tzid.parse().unwrap()`, so an
identifier outside the timezone database is a panic, not an error value;
a successful parse resolves the local time and maps a non-single result to
the error value. -/
def get_start_time_from_event (tzdb : List Char → Option Tz) (event : Event) :
    Outcome Int :=
  match event.start with
  | some d =>
    match d with
    | .date naive_date =>
      match utcLocalize (midnightSeconds naive_date) with
      | .single t => .ok t
      | _ => .err startTimeErrMsg
    | .dateTime date_time =>
      match date_time with
      | .utc utc => .ok utc
      | .floating naive =>
        match utcLocalize naive with
        | .single t => .ok t
        | _ => .err startTimeErrMsg
      | .withTimezone date_time tzid =>
        match tzdb tzid with
        | none => .panicked
        | some tz =>
          match tz.resolveLocal date_time with
          | .single t => .ok t
          | _ => .err startTimeErrMsg
  | none => .err startTimeErrMsg

/-- A timezone database that recognizes no identifier. -/
def emptyTzdb : List Char → Option Tz := fun _ => none

/-- An event with only a start field set. -/
def mkStartEvent (s : Option DatePerhapsTime) : Event :=
  { summary := none, categories := none, description := none, attach := none,
    start := s }

/-- A model timezone with a DST gap (local timestamps below 0 do not exist)
and a DST overlap (local timestamp 3600 occurs twice); other local
timestamps resolve at a fixed offset of 32400 seconds. -/
def dstTz : Tz :=
  { resolveLocal := fun dt =>
      if dt < 0 then .notFound
      else if dt = 3600 then .ambiguous 0 7200
      else .single (dt - 32400) }

/-- A timezone database holding only `dstTz` under one identifier. -/
def dstDb : List Char → Option Tz :=
  fun tzid => if tzid = "Asia/Model".data then some dstTz else none

/-- C10: a start time that already carries the explicit UTC marker is
returned exactly as that instant, through the `Ok` branch, for every
timezone database. -/
theorem utc_start_time_unchanged (tzdb : List Char → Option Tz) (e : Event)
    (t : Int) (h : e.start = some (.dateTime (.utc t))) :
    get_start_time_from_event tzdb e = .ok t := by
  simp [get_start_time_from_event, h]

/-- Witness for the C10 theorem at a concrete UTC-marked event. -/
theorem utc_start_time_unchanged_witness :
    get_start_time_from_event emptyTzdb
      (mkStartEvent (some (.dateTime (.utc 1700000000)))) = .ok 1700000000 :=
  utc_start_time_unchanged emptyTzdb
    (mkStartEvent (some (.dateTime (.utc 1700000000)))) 1700000000 rfl

/-- C5 (counterexample): with a start time in a named timezone whose
identifier the timezone database cannot parse, the Temporal Resolver panics
(the source unwraps the parse result), so no error result is returned for
the event. -/
theorem unparseable_tz_panics_cex :
    get_start_time_from_event emptyTzdb
      (mkStartEvent (some (.dateTime (.withTimezone 1000 ("Invalid/Zone".data)))))
      = .panicked := rfl

/-- C5 (amended): when the start time is a local time with an explicit named
timezone whose identifier is unparseable or unsupported, the Temporal
Resolver panics (`tzid.parse().unwrap()`), an unrecoverable condition, rather
than returning an error result for that event. -/
theorem unparseable_tz_panics (tzdb : List Char → Option Tz) (e : Event)
    (dt : Int) (tzid : List Char) (hdb : tzdb tzid = none)
    (h : e.start = some (.dateTime (.withTimezone dt tzid))) :
    get_start_time_from_event tzdb e = .panicked := by
  simp [get_start_time_from_event, h, hdb]

/-- Witness for the amended C5 theorem at a concrete event: `dstDb` does not
recognize the identifier. -/
theorem unparseable_tz_panics_witness :
    get_start_time_from_event dstDb
      (mkStartEvent (some (.dateTime (.withTimezone 2000 ("Foo/Bar".data)))))
      = .panicked :=
  unparseable_tz_panics dstDb
    (mkStartEvent (some (.dateTime (.withTimezone 2000 ("Foo/Bar".data)))))
    2000 ("Foo/Bar".data) rfl rfl

/-- C7: a date-only start time resolves to midnight UTC of that date; a
floating local time resolves to the same wall-clock timestamp read as UTC;
and a named-timezone local time that is ambiguous (DST overlap) or
non-existent (DST gap) is a hard failure with the resolver's error value. -/
theorem temporal_resolver_spec :
    (∀ tzdb e d, e.start = some (.date d) →
        get_start_time_from_event tzdb e = .ok (midnightSeconds d)) ∧
    (∀ tzdb e dt, e.start = some (.dateTime (.floating dt)) →
        get_start_time_from_event tzdb e = .ok dt) ∧
    (∀ tzdb e dt tzid tz, tzdb tzid = some tz →
        e.start = some (.dateTime (.withTimezone dt tzid)) →
        ((∃ a b, tz.resolveLocal dt = .ambiguous a b) ∨
          tz.resolveLocal dt = .notFound) →
        get_start_time_from_event tzdb e = .err startTimeErrMsg) := by
  refine ⟨?_, ?_, ?_⟩
  · intro tzdb e d h
    simp [get_start_time_from_event, h, utcLocalize]
  · intro tzdb e dt h
    simp [get_start_time_from_event, h, utcLocalize]
  · intro tzdb e dt tzid tz hdb h hres
    rcases hres with ⟨a, b, hab⟩ | hnf
    · simp [get_start_time_from_event, h, hdb, hab]
    · simp [get_start_time_from_event, h, hdb, hnf]

/-- Witness for the C7 theorem: a concrete date-only event, floating event,
and an event falling in `dstTz`'s DST overlap. -/
theorem temporal_resolver_spec_witness :
    get_start_time_from_event dstDb (mkStartEvent (some (.date 19000)))
        = .ok (midnightSeconds 19000) ∧
    get_start_time_from_event dstDb (mkStartEvent (some (.dateTime (.floating 5000))))
        = .ok 5000 ∧
    get_start_time_from_event dstDb
        (mkStartEvent (some (.dateTime (.withTimezone 3600 ("Asia/Model".data)))))
        = .err startTimeErrMsg :=
  ⟨temporal_resolver_spec.1 dstDb (mkStartEvent (some (.date 19000))) 19000 rfl,
   temporal_resolver_spec.2.1 dstDb
     (mkStartEvent (some (.dateTime (.floating 5000)))) 5000 rfl,
   temporal_resolver_spec.2.2 dstDb
     (mkStartEvent (some (.dateTime (.withTimezone 3600 ("Asia/Model".data)))))
     3600 ("Asia/Model".data) dstTz rfl rfl (Or.inl ⟨0, 7200, rfl⟩)⟩

/-! Link extractors (calendar_parser.rs lines 181-266).  The regexes are
embedded as explicit scanners with the regex crate's leftmost-first,
greedy-with-backtracking capture semantics.  Regex classes `\w`, `\s` and the
URL continuation classes are modelled over ASCII. -/

/-- ASCII model of the regex word class `\w` (digits, letters, underscore). -/
def isWordChar (c : Char) : Bool :=
  (48 ≤ c.toNat && c.toNat ≤ 57) || (65 ≤ c.toNat && c.toNat ≤ 90) ||
    (97 ≤ c.toNat && c.toNat ≤ 122) || c = '_'

/-- ASCII letters and digits. -/
def isAsciiAlphaNum (c : Char) : Bool :=
  (48 ≤ c.toNat && c.toNat ≤ 57) || (65 ≤ c.toNat && c.toNat ≤ 90) ||
    (97 ≤ c.toNat && c.toNat ≤ 122)

/-- The URL continuation class `[-a-zA-Z0-9()@%_\+.~#?&//=]` shared by the
domain-anchored extractor regexes. -/
def urlContChar (c : Char) : Bool :=
  isAsciiAlphaNum c ||
    hasChar c ['-', '(', ')', '@', '%', '_', '+', '.', '~', '#', '?', '&', '/', '=']

/-- Literal-prefix consumption: the rest of `s` after `pat`, when `pat` leads. -/
def stripLit (pat s : List Char) : Option (List Char) :=
  if pat.isPrefixOf s then some (s.drop pat.length) else none

/-- The scheme part `https?://` (greedy `s?`, deterministic here): the
consumed text and the rest. -/
def stripScheme (s : List Char) : Option (List Char × List Char) :=
  match stripLit ("https://".data) s with
  | some r => some ("https://".data, r)
  | none =>
    match stripLit ("http://".data) s with
    | some r => some ("http://".data, r)
    | none => none

/-- Match of `(www\.)?twitter\.com\b([-a-zA-Z0-9()@%_\+.~#?&//=]*)` at the
head of `s`: `\b` requires the character after "twitter.com" (when any) to be
a non-word character; the continuation run is greedy.  The optional "www."
backtracks: if the tail fails after consuming it, the bare alternative is
tried. -/
def matchTwitterTail (s : List Char) : Option (List Char × List Char) :=
  let tryTail := fun (www r : List Char) =>
    match stripLit ("twitter.com".data) r with
    | some r2 =>
      match r2 with
      | [] => some (www ++ "twitter.com".data, ([] : List Char))
      | c :: _ =>
        if isWordChar c then none
        else
          let run := r2.takeWhile urlContChar
          some (www ++ "twitter.com".data ++ run, r2.drop run.length)
    | none => none
  match stripLit ("www.".data) s with
  | some r =>
    match tryTail ("www.".data) r with
    | some v => some v
    | none => tryTail [] s
  | none => tryTail [] s

/-- Match of the whole social-post regex
`https?://(www\.)?twitter\.com\b([-a-zA-Z0-9()@%_\+.~#?&//=]*)` at the head
of `s`: the matched text and the rest of the input. -/
def matchTwitterAt (s : List Char) : Option (List Char × List Char) :=
  match stripScheme s with
  | some (scheme, r) =>
    match matchTwitterTail r with
    | some (m, rest) => some (scheme ++ m, rest)
    | none => none
  | none => none

/-- Successive non-overlapping leftmost matches of the social-post regex:
models `captures_iter`.  One fuel unit is spent per consumed character. -/
def twitterMatchesAux : Nat → List Char → List (List Char)
  | 0, _ => []
  | _ + 1, [] => []
  | fuel + 1, c :: t =>
    match matchTwitterAt (c :: t) with
    | some (m, rest) => m :: twitterMatchesAux fuel rest
    | none => twitterMatchesAux fuel t

/-- All matches of the social-post regex in the description, left to right. -/
def twitterMatches (s : List Char) : List (List Char) :=
  twitterMatchesAux s.length s

/-- Opaque model of `url::Url`: the validated text. -/
structure Url where
  raw : List Char
deriving DecidableEq

/-- Model of `Url::parse`, specified on the candidates the extractors
produce: absolute http(s) text parses, schemeless text does not. -/
def urlParse (s : List Char) : Except (List Char) Url :=
  if ("http://".data).isPrefixOf s || ("https://".data).isPrefixOf s then .ok ⟨s⟩
  else .error ("relative URL without a base".data)

/-- Error message of the social-post extractor. -/
def twitterErrMsg : List Char := "twitter url parse failed".data

/-- The social-post extractor (calendar_parser.rs lines 201-212):
`captures_iter(description).last()`. -/
def get_twitter_url_from_description (description : List Char) :
    Except (List Char) Url :=
  match (twitterMatches description).getLast? with
  | some m => urlParse m
  | none => .error twitterErrMsg

/-- The video-id class `[\w\-_]` of the video-replay regex. -/
def ytIdChar (c : Char) : Bool := isWordChar c || c = '-'

/-- The query class `[\w\?=]` of the video-replay regex. -/
def ytQsChar (c : Char) : Bool := isWordChar c || c = '?' || c = '='

/-- Match of `youtu(?:be\.com/watch\?v=|\.be/)([\w\-_]*)(&(amp;)?[\w\?=]*)?`
at the head of `r` (after scheme and optional "www."): alternation prefers
the watch-link form, runs are greedy, the trailing query group is optional. -/
def matchYoutubeTail (r : List Char) : Option (List Char × List Char) :=
  match stripLit ("youtu".data) r with
  | some r1 =>
    let alt :=
      match stripLit ("be.com/watch?v=".data) r1 with
      | some r2 => some ("be.com/watch?v=".data, r2)
      | none =>
        match stripLit (".be/".data) r1 with
        | some r2 => some (".be/".data, r2)
        | none => none
    match alt with
    | some (mid, r2) =>
      let idRun := r2.takeWhile ytIdChar
      let r3 := r2.drop idRun.length
      let tail :=
        match r3 with
        | '&' :: r4 =>
          match stripLit ("amp;".data) r4 with
          | some r5 =>
            ('&' :: ("amp;".data ++ r5.takeWhile ytQsChar),
              r5.drop (r5.takeWhile ytQsChar).length)
          | none =>
            ('&' :: r4.takeWhile ytQsChar, r4.drop (r4.takeWhile ytQsChar).length)
        | _ => (([] : List Char), r3)
      some ("youtu".data ++ mid ++ idRun ++ tail.1, tail.2)
    | none => none
  | none => none

/-- The `(?:www\.)?` part of the video-replay regex followed by its tail,
with backtracking over the optional "www.". -/
def matchYoutubeWww (r : List Char) : Option (List Char × List Char) :=
  match stripLit ("www.".data) r with
  | some r1 =>
    match matchYoutubeTail r1 with
    | some (m, rest) => some ("www.".data ++ m, rest)
    | none => matchYoutubeTail r
  | none => matchYoutubeTail r

/-- Match of the whole video-replay regex
`http(?:s?)://(?:www\.)?youtu(?:be\.com/watch\?v=|\.be/)...` at the head of
`s`. -/
def matchYoutubeAt (s : List Char) : Option (List Char × List Char) :=
  match stripScheme s with
  | some (scheme, r) =>
    match matchYoutubeWww r with
    | some (m, rest) => some (scheme ++ m, rest)
    | none => none
  | none => none

/-- Successive non-overlapping leftmost matches of the video-replay regex. -/
def youtubeMatchesAux : Nat → List Char → List (List Char)
  | 0, _ => []
  | _ + 1, [] => []
  | fuel + 1, c :: t =>
    match matchYoutubeAt (c :: t) with
    | some (m, rest) => m :: youtubeMatchesAux fuel rest
    | none => youtubeMatchesAux fuel t

/-- All matches of the video-replay regex in the description. -/
def youtubeMatches (s : List Char) : List (List Char) :=
  youtubeMatchesAux s.length s

/-- Leftmost-match scan: models `Regex::captures`, which yields only the
first match. -/
def youtubeFirstAux : Nat → List Char → Option (List Char)
  | 0, _ => none
  | _ + 1, [] => none
  | fuel + 1, c :: t =>
    match matchYoutubeAt (c :: t) with
    | some (m, _) => some m
    | none => youtubeFirstAux fuel t

/-- The first match of the video-replay regex in the description. -/
def youtubeFirstMatch (s : List Char) : Option (List Char) :=
  youtubeFirstAux s.length s

/-- Error message of the video-replay extractor. -/
def youtubeErrMsg : List Char := "youtube url parse failed".data

/-- The video-replay extractor (calendar_parser.rs lines 214-225):
`captures(description)`, i.e. the first match only. -/
def get_youtube_link_from_description (description : List Char) :
    Except (List Char) Url :=
  match youtubeFirstMatch description with
  | some m => urlParse m
  | none => .error youtubeErrMsg

theorem stripScheme_eq (s scheme r : List Char) (h : stripScheme s = some (scheme, r)) :
    scheme = "https://".data ∨ scheme = "http://".data := by
  unfold stripScheme stripLit at h
  split_ifs at h with h1 h2 <;> simp_all

theorem matchTwitterAt_scheme (s m rest : List Char)
    (h : matchTwitterAt s = some (m, rest)) :
    ("http://".data).isPrefixOf m = true ∨ ("https://".data).isPrefixOf m = true := by
  unfold matchTwitterAt at h
  cases e : stripScheme s with
  | none => rw [e] at h; simp at h
  | some v =>
    obtain ⟨scheme, r⟩ := v
    rw [e] at h
    dsimp only at h
    cases e2 : matchTwitterTail r with
    | none => rw [e2] at h; simp at h
    | some w =>
      obtain ⟨m0, rest0⟩ := w
      rw [e2] at h
      simp only [Option.some.injEq, Prod.mk.injEq] at h
      obtain ⟨rfl, rfl⟩ := h
      rcases stripScheme_eq s scheme r e with rfl | rfl
      · right; rw [List.isPrefixOf_iff_prefix]; exact List.prefix_append _ _
      · left; rw [List.isPrefixOf_iff_prefix]; exact List.prefix_append _ _

theorem matchYoutubeAt_scheme (s m rest : List Char)
    (h : matchYoutubeAt s = some (m, rest)) :
    ("http://".data).isPrefixOf m = true ∨ ("https://".data).isPrefixOf m = true := by
  unfold matchYoutubeAt at h
  cases e : stripScheme s with
  | none => rw [e] at h; simp at h
  | some v =>
    obtain ⟨scheme, r⟩ := v
    rw [e] at h
    dsimp only at h
    cases e2 : matchYoutubeWww r with
    | none => rw [e2] at h; simp at h
    | some w =>
      obtain ⟨m0, rest0⟩ := w
      rw [e2] at h
      simp only [Option.some.injEq, Prod.mk.injEq] at h
      obtain ⟨rfl, rfl⟩ := h
      rcases stripScheme_eq s scheme r e with rfl | rfl
      · right; rw [List.isPrefixOf_iff_prefix]; exact List.prefix_append _ _
      · left; rw [List.isPrefixOf_iff_prefix]; exact List.prefix_append _ _

theorem twitterMatchesAux_scheme (fuel : Nat) :
    ∀ s m, m ∈ twitterMatchesAux fuel s →
      ("http://".data).isPrefixOf m = true ∨ ("https://".data).isPrefixOf m = true := by
  induction fuel with
  | zero => intro s m h; simp [twitterMatchesAux] at h
  | succ n ih =>
    intro s m h
    cases s with
    | nil => simp [twitterMatchesAux] at h
    | cons c t =>
      rw [twitterMatchesAux] at h
      cases e : matchTwitterAt (c :: t) with
      | none => rw [e] at h; exact ih t m h
      | some v =>
        obtain ⟨m0, rest⟩ := v
        rw [e] at h
        rcases List.mem_cons.mp h with rfl | h2
        · exact matchTwitterAt_scheme _ _ _ e
        · exact ih rest m h2

theorem youtubeMatchesAux_scheme (fuel : Nat) :
    ∀ s m, m ∈ youtubeMatchesAux fuel s →
      ("http://".data).isPrefixOf m = true ∨ ("https://".data).isPrefixOf m = true := by
  induction fuel with
  | zero => intro s m h; simp [youtubeMatchesAux] at h
  | succ n ih =>
    intro s m h
    cases s with
    | nil => simp [youtubeMatchesAux] at h
    | cons c t =>
      rw [youtubeMatchesAux] at h
      cases e : matchYoutubeAt (c :: t) with
      | none => rw [e] at h; exact ih t m h
      | some v =>
        obtain ⟨m0, rest⟩ := v
        rw [e] at h
        rcases List.mem_cons.mp h with rfl | h2
        · exact matchYoutubeAt_scheme _ _ _ e
        · exact ih rest m h2

theorem youtubeFirstAux_eq_head (fuel : Nat) :
    ∀ s, youtubeFirstAux fuel s = (youtubeMatchesAux fuel s).head? := by
  induction fuel with
  | zero => intro s; rfl
  | succ n ih =>
    intro s
    cases s with
    | nil => rfl
    | cons c t =>
      rw [youtubeFirstAux, youtubeMatchesAux]
      cases e : matchYoutubeAt (c :: t) with
      | none => simpa using ih t
      | some v => obtain ⟨m, rest⟩ := v; rfl

theorem mem_of_getLast?_eq (l : List (List Char)) (m : List Char)
    (h : l.getLast? = some m) : m ∈ l := by
  have hx : m ∈ l.getLast? := by rw [h]; rfl
  obtain ⟨hh, rfl⟩ := List.mem_getLast?_eq_getLast hx
  exact List.getLast_mem hh

/-- C9: whenever the social-post regex matches (once or several times), the
social-post extractor returns the last match of the description, and the
video-replay extractor returns the first match; both parse successfully
because every match begins with an http(s) scheme. -/
theorem link_extractor_order_spec :
    (∀ desc m, (twitterMatches desc).getLast? = some m →
        get_twitter_url_from_description desc = .ok ⟨m⟩) ∧
    (∀ desc m, (youtubeMatches desc).head? = some m →
        get_youtube_link_from_description desc = .ok ⟨m⟩) := by
  constructor
  · intro desc m h
    have hscheme := twitterMatchesAux_scheme desc.length desc m
      (mem_of_getLast?_eq _ _ h)
    unfold get_twitter_url_from_description
    rw [h]
    unfold urlParse
    rcases hscheme with h1 | h1 <;> simp [h1]
  · intro desc m h
    have hmem : m ∈ youtubeMatches desc := by
      unfold youtubeMatches at h ⊢
      cases e : youtubeMatchesAux desc.length desc with
      | nil => rw [e] at h; simp at h
      | cons a t => rw [e] at h; simp at h; simp [h]
    have hscheme := youtubeMatchesAux_scheme desc.length desc m hmem
    unfold get_youtube_link_from_description youtubeFirstMatch
    rw [youtubeFirstAux_eq_head desc.length desc]
    unfold youtubeMatches at h
    rw [h]
    unfold urlParse
    rcases hscheme with h1 | h1 <;> simp [h1]

/-- A description carrying two social-post links and two video links. -/
def multiLinkDescription : List Char :=
  ("See https://twitter.com/foo/status/1 and https://twitter.com/bar/status/2 " ++
   "plus https://youtu.be/abc and https://www.youtube.com/watch?v=def end").data

/-- Witness for the C9 theorem: on `multiLinkDescription` both regexes match
twice; the social-post extractor returns the second (last) social link and
the video-replay extractor the first video link. -/
theorem link_extractor_order_witness :
    twitterMatches multiLinkDescription =
      ["https://twitter.com/foo/status/1".data,
       "https://twitter.com/bar/status/2".data] ∧
    get_twitter_url_from_description multiLinkDescription =
      .ok ⟨"https://twitter.com/bar/status/2".data⟩ ∧
    youtubeMatches multiLinkDescription =
      ["https://youtu.be/abc".data, "https://www.youtube.com/watch?v=def".data] ∧
    get_youtube_link_from_description multiLinkDescription =
      .ok ⟨"https://youtu.be/abc".data⟩ :=
  ⟨by decide,
   link_extractor_order_spec.1 multiLinkDescription _ (by decide),
   by decide,
   link_extractor_order_spec.2 multiLinkDescription _ (by decide)⟩

/-! The remaining three link extractors: image (lines 181-199, 268-282),
ticketing (lines 227-253) and official-site (lines 255-266).  They share a
generic labelled-URL pattern
`https?://(www\.)?HOST{1,256}\.TLD{1,6}\b(CONT*)` whose bounded repetitions
backtrack greedily. -/

/-- Host class `[-a-zA-Z0-9@:%._\+~#=]` of the image and official regexes. -/
def imageHostChar (c : Char) : Bool :=
  isAsciiAlphaNum c || hasChar c ['-', '@', ':', '%', '.', '_', '+', '~', '#', '=']

/-- Host class `[-a-zA-Z0-9@%._\+~#=]` of the ticket-label regex (no colon). -/
def ticketHostChar (c : Char) : Bool :=
  isAsciiAlphaNum c || hasChar c ['-', '@', '%', '.', '_', '+', '~', '#', '=']

/-- The class `[a-zA-Z0-9()]` of the top-level-domain part. -/
def tldChar (c : Char) : Bool := isAsciiAlphaNum c || c = '(' || c = ')'

/-- Word boundary `\b` between a last consumed character and the rest of the
input (end of input counts as a non-word character). -/
def boundaryAfter (a : Char) (rest : List Char) : Bool :=
  match rest with
  | [] => isWordChar a
  | b :: _ => isWordChar a != isWordChar b

/-- Match of `HOST{1,256}\.TLD{1,6}\b(CONT*)` at the head of `r`: the host
and TLD repetitions are greedy and backtrack (longest first), the
continuation run is greedy.  Returns the consumed text and the rest. -/
def matchUrlCore (hostChar : Char → Bool) (r : List Char) :
    Option (List Char × List Char) :=
  let kmax := min (r.takeWhile hostChar).length 256
  (List.range kmax).reverse.findSome? (fun i =>
    let k := i + 1
    match r.drop k with
    | '.' :: r2 =>
      let tmax := min (r2.takeWhile tldChar).length 6
      (List.range tmax).reverse.findSome? (fun j =>
        let t := j + 1
        let tld := r2.take t
        let rest := r2.drop t
        match tld.getLast? with
        | some a =>
          if boundaryAfter a rest then
            let run := rest.takeWhile urlContChar
            some (r.take k ++ ('.' :: tld) ++ run, rest.drop run.length)
          else none
        | none => none)
    | _ => none)

/-- Match of the full generic URL pattern
`https?://(www\.)?HOST{1,256}\.TLD{1,6}\b(CONT*)` at the head of `s`,
backtracking over the optional "www.". -/
def matchUrlAt (hostChar : Char → Bool) (s : List Char) :
    Option (List Char × List Char) :=
  match stripScheme s with
  | some (scheme, r) =>
    let core :=
      match stripLit ("www.".data) r with
      | some r1 =>
        match matchUrlCore hostChar r1 with
        | some (m, rest) => some ("www.".data ++ m, rest)
        | none => matchUrlCore hostChar r
      | none => matchUrlCore hostChar r
    match core with
    | some (m, rest) => some (scheme ++ m, rest)
    | none => none
  | none => none

/-- Leftmost scan for a per-position matcher: the first position where it
yields a capture wins (models `Regex::captures` for the label regexes). -/
def findFirstAux (f : List Char → Option (List Char)) :
    Nat → List Char → Option (List Char)
  | 0, _ => none
  | _ + 1, [] => none
  | fuel + 1, c :: t =>
    match f (c :: t) with
    | some m => some m
    | none => findFirstAux f fuel t

/-- Leftmost capture of `f` in `s`. -/
def findFirst (f : List Char → Option (List Char)) (s : List Char) :
    Option (List Char) :=
  findFirstAux f s.length s

/-- A literal label followed by the generic URL pattern; the capture is the
URL alone. -/
def matchLabelUrlAt (label : List Char) (hostChar : Char → Bool)
    (s : List Char) : Option (List Char) :=
  match stripLit label s with
  | some r =>
    match matchUrlAt hostChar r with
    | some (m, _) => some m
    | none => none
  | none => none

/-- The fallback image pattern `!.*?: (URL)`: a bang, a lazy newline-free
filler (shortest first), the literal ": ", then the URL capture. -/
def matchBangLabelAt (hostChar : Char → Bool) (s : List Char) :
    Option (List Char) :=
  match s with
  | '!' :: r =>
    (List.range (r.length + 1)).findSome? (fun j =>
      if (r.take j).all (fun c => !(c = '\n')) then
        match stripLit (": ".data) (r.drop j) with
        | some r2 =>
          match matchUrlAt hostChar r2 with
          | some (m, _) => some m
          | none => none
        | none => none
      else none)
  | _ => none

/-- Error message of the image extractor. -/
def imageErrMsg : List Char := "image url parse failed".data

/-- The image extractor over a description (calendar_parser.rs lines
181-199): the explicit "!Image: " label is preferred, the generic "!label: "
shape is the fallback. -/
def get_image_url_from_description (description : List Char) :
    Except (List Char) Url :=
  match findFirst (matchLabelUrlAt ("!Image: ".data) imageHostChar) description with
  | some url => urlParse url
  | none =>
    match findFirst (matchBangLabelAt imageHostChar) description with
    | some url => urlParse url
    | none => .error imageErrMsg

/-- The image extractor over an event (calendar_parser.rs lines 268-282): a
structured ATTACH property is preferred; otherwise the sanitized description
is scanned. -/
def get_image_url_from_event (e : Event) : Except (List Char) Url :=
  match e.attach with
  | some image_url => urlParse image_url
  | none =>
    match e.description with
    | some description =>
      get_image_url_from_description
        (remove_form_link_from_description_and_trim description)
    | none => .error ("failed to get description".data)

/-- The label part `[T|t]icket (?:[L|l]ink|site):\s?` of the first ticket
pattern (the classes contain a literal bar); returns the rest after the
optional whitespace.  The two alternatives start with distinct characters, so
no backtracking across the alternation is possible. -/
def ticketLabelAt (s : List Char) : Option (List Char) :=
  match s with
  | c :: r =>
    if c = 'T' || c = '|' || c = 't' then
      match stripLit ("icket ".data) r with
      | some r1 =>
        let afterAlt :=
          match r1 with
          | d :: r2 =>
            if d = 'L' || d = '|' || d = 'l' then stripLit ("ink".data) r2
            else stripLit ("site".data) r1
          | [] => none
        match afterAlt with
        | some r3 =>
          match r3 with
          | ':' :: r4 =>
            match r4 with
            | w :: r5 => if isWS w then some r5 else some r4
            | [] => some r4
          | _ => none
        | none => none
      | none => none
    else none
  | [] => none

/-- First ticket pattern: ticket label then the generic URL capture. -/
def matchTicketLabelAt (s : List Char) : Option (List Char) :=
  match ticketLabelAt s with
  | some r =>
    match matchUrlAt ticketHostChar r with
    | some (m, _) => some m
    | none => none
  | none => none

/-- Match of a fixed domain followed by `\b` and the greedy continuation run
(the shared shape of the domain-anchored ticket patterns). -/
def matchDomainTail (domain : List Char) (r : List Char) :
    Option (List Char × List Char) :=
  match stripLit domain r with
  | some r2 =>
    match r2 with
    | [] => some (domain, ([] : List Char))
    | c :: _ =>
      if isWordChar c then none
      else
        let run := r2.takeWhile urlContChar
        some (domain ++ run, r2.drop run.length)
  | none => none

/-- Second ticket pattern `https?://(www\.)?zan-live\.com\b(CONT*)`. -/
def matchZanAt (s : List Char) : Option (List Char × List Char) :=
  match stripScheme s with
  | some (scheme, r) =>
    let t :=
      match stripLit ("www.".data) r with
      | some r1 =>
        match matchDomainTail ("zan-live.com".data) r1 with
        | some (m, rest) => some ("www.".data ++ m, rest)
        | none => matchDomainTail ("zan-live.com".data) r
      | none => matchDomainTail ("zan-live.com".data) r
    match t with
    | some (m, rest) => some (scheme ++ m, rest)
    | none => none
  | none => none

/-- Third ticket pattern `https?://virtual\.spwn\.jp\b(CONT*)`. -/
def matchSpwnAt (s : List Char) : Option (List Char × List Char) :=
  match stripScheme s with
  | some (scheme, r) =>
    match matchDomainTail ("virtual.spwn.jp".data) r with
    | some (m, rest) => some (scheme ++ m, rest)
    | none => none
  | none => none

/-- Fourth ticket pattern `https?://live\.nicovideo\.jp\b(CONT*)`. -/
def matchNicoAt (s : List Char) : Option (List Char × List Char) :=
  match stripScheme s with
  | some (scheme, r) =>
    match matchDomainTail ("live.nicovideo.jp".data) r with
    | some (m, rest) => some (scheme ++ m, rest)
    | none => none
  | none => none

/-- Error message of the ticketing extractor. -/
def ticketErrMsg : List Char := "ticket url parse failed".data

/-- The ticketing extractor (calendar_parser.rs lines 227-253): the RegexSet
reports which of the four patterns match anywhere in the description; the
lowest-index matching pattern wins and its leftmost capture is parsed. -/
def get_ticket_link_from_description (description : List Char) :
    Except (List Char) Url :=
  match findFirst matchTicketLabelAt description with
  | some m => urlParse m
  | none =>
    match findFirst (fun s => (matchZanAt s).map Prod.fst) description with
    | some m => urlParse m
    | none =>
      match findFirst (fun s => (matchSpwnAt s).map Prod.fst) description with
      | some m => urlParse m
      | none =>
        match findFirst (fun s => (matchNicoAt s).map Prod.fst) description with
        | some m => urlParse m
        | none => .error ticketErrMsg

/-- Error message of the official-site extractor. -/
def officialErrMsg : List Char := "official url parse failed".data

/-- The label-and-URL pattern `Official site:\s?(URL)` at the head of `s`. -/
def matchOfficialAt (s : List Char) : Option (List Char) :=
  match stripLit ("Official site:".data) s with
  | some r =>
    let r2 :=
      match r with
      | w :: r5 => if isWS w then r5 else r
      | [] => r
    match matchUrlAt imageHostChar r2 with
    | some (m, _) => some m
    | none => none
  | none => none

/-- The official-site extractor (calendar_parser.rs lines 255-266). -/
def get_official_link_from_description (description : List Char) :
    Except (List Char) Url :=
  match findFirst matchOfficialAt description with
  | some m => urlParse m
  | none => .error officialErrMsg

/-! The Title/Price/Format Splitter (calendar_parser.rs lines 92-107) and the
Concert Aggregator (lines 15-58). -/

/-- The summary-parse error, carrying the offending text (line 96). -/
def summaryErr (summary : List Char) : List Char :=
  "Calendar event summary parsing failed, the text is \"".data ++ summary ++
    "\"".data

/-- The `(.*)\)(.+)$` tail of the summary regex over `m`: the greedy group 2
(longest first, newline-free), the literal ')', and the non-empty
newline-free remainder as group 3. -/
def matchSummaryTail (m : List Char) : Option (List Char × List Char) :=
  (List.range (m.length + 1)).reverse.findSome? (fun j =>
    if (m.take j).all (fun c => !(c = '\n')) then
      match m.drop j with
      | ')' :: g3 =>
        if !g3.isEmpty && g3.all (fun c => !(c = '\n')) then some (m.take j, g3)
        else none
      | _ => none
    else none)

/-- The greedy split of the summary regex `^\((.*)\)\((.*)\)(.+)$` after the
leading '(': group 1 is chosen longest first (newline-free), followed by the
literal ")(", then the tail split. -/
def findSummarySplit (rest : List Char) :
    Option (List Char × List Char × List Char) :=
  (List.range (rest.length + 1)).reverse.findSome? (fun i =>
    if (rest.take i).all (fun c => !(c = '\n')) then
      match rest.drop i with
      | ')' :: '(' :: m =>
        match matchSummaryTail m with
        | some (g2, g3) => some (rest.take i, g2, g3)
        | none => none
      | _ => none
    else none)

/-- The Title/Price/Format Splitter (calendar_parser.rs lines 92-107): the
anchored three-part shape, price classified first, then format, and the
trimmed remainder as the title. -/
def get_title_price_and_platform_from_summary (summary : List Char) :
    Except (List Char) (List Char × JpyPrice × LiveFormat) :=
  match summary with
  | '(' :: rest =>
    match findSummarySplit rest with
    | some (price_text, format_text, title_text) =>
      match get_price_from_string price_text with
      | .error msg => .error msg
      | .ok price_parsed =>
        match get_format_from_string format_text with
        | .error msg => .error msg
        | .ok format_parsed => .ok (trim title_text, price_parsed, format_parsed)
    | none => .error (summaryErr summary)
  | _ => .error (summaryErr summary)

/-- The aggregate record as models.rs lines 47-58 declares it: title, format,
price, platform, description, start instant, and three optional link fields
(image, social-post, video-replay) — no identifier, no ticketing link, no
official-site link. -/
structure LiveConcert where
  title : List Char
  format : LiveFormat
  jpy_price : JpyPrice
  platform : Platform
  description : List Char
  start_time : Int
  image_url : Option Url
  twitter_url : Option Url
  youtube_link : Option Url
deriving DecidableEq

/-- The record as the struct literal at calendar_parser.rs line 57 builds it:
a fresh identifier and five optional link fields, including `ticket_link` and
`official_link`, which the `LiveConcert` declaration in models.rs does not
have (the two files disagree; the identifier is a parameter here because
unique-identifier generation is an excluded collaborator). -/
structure ConstructedConcert where
  id : Nat
  title : List Char
  format : LiveFormat
  jpy_price : JpyPrice
  platform : Platform
  description : List Char
  start_time : Int
  image_url : Option Url
  twitter_url : Option Url
  youtube_link : Option Url
  ticket_link : Option Url
  official_link : Option Url
deriving DecidableEq

/-- The Concert Aggregator (calendar_parser.rs lines 15-58): required fields
in source order — summary, category, splitter, platform, description, start
time — each absence or parse failure aborting with its error; the five link
extractors run best-effort, `.ok()` turning any extractor error into an
absent field. -/
def get_concert_from_event (tzdb : List Char → Option Tz) (uuid : Nat)
    (e : Event) : Outcome ConstructedConcert :=
  match e.summary with
  | none => .err ("failed to get summary".data)
  | some summary0 =>
    let summary_str := trim summary0
    match e.categories with
    | none => .err ("failed to get category".data)
    | some cat0 =>
      let category_str := trim cat0
      match get_title_price_and_platform_from_summary summary_str with
      | .error msg => .err msg
      | .ok tpf =>
        match get_platform_from_tag category_str with
        | .error msg => .err msg
        | .ok platform =>
          match e.description with
          | none => .err ("failed to get description".data)
          | some description =>
            let trimmed_description :=
              remove_form_link_from_description_and_trim description
            match get_start_time_from_event tzdb e with
            | .panicked => .panicked
            | .err msg => .err msg
            | .ok start_time =>
              .ok { id := uuid, title := tpf.1, format := tpf.2.2,
                    jpy_price := tpf.2.1, platform,
                    description := trimmed_description, start_time,
                    image_url := (get_image_url_from_event e).toOption,
                    twitter_url := (get_twitter_url_from_description
                      trimmed_description).toOption,
                    youtube_link := (get_youtube_link_from_description
                      trimmed_description).toOption,
                    ticket_link := (get_ticket_link_from_description
                      trimmed_description).toOption,
                    official_link := (get_official_link_from_description
                      trimmed_description).toOption }

/-- C8: the Aggregator's error policy.  Absence of a required input fails the
whole aggregation with the error naming the missing field, at the point in
source order where it is read (summary, category, description, start time);
and when every required step succeeds the aggregation succeeds with the five
link fields each equal to the corresponding extractor's result demoted to an
option — an extractor failure becomes an absent value and never fails the
aggregation. -/
theorem aggregator_error_policy :
    (∀ tzdb uuid e, e.summary = none →
        get_concert_from_event tzdb uuid e = .err ("failed to get summary".data)) ∧
    (∀ tzdb uuid e s, e.summary = some s → e.categories = none →
        get_concert_from_event tzdb uuid e = .err ("failed to get category".data)) ∧
    (∀ tzdb uuid e s c tpf p, e.summary = some s → e.categories = some c →
        get_title_price_and_platform_from_summary (trim s) = .ok tpf →
        get_platform_from_tag (trim c) = .ok p → e.description = none →
        get_concert_from_event tzdb uuid e =
          .err ("failed to get description".data)) ∧
    (∀ tzdb uuid e s c tpf p d, e.summary = some s → e.categories = some c →
        get_title_price_and_platform_from_summary (trim s) = .ok tpf →
        get_platform_from_tag (trim c) = .ok p → e.description = some d →
        e.start = none →
        get_concert_from_event tzdb uuid e = .err startTimeErrMsg) ∧
    (∀ tzdb uuid e s c tpf p d st, e.summary = some s → e.categories = some c →
        get_title_price_and_platform_from_summary (trim s) = .ok tpf →
        get_platform_from_tag (trim c) = .ok p → e.description = some d →
        get_start_time_from_event tzdb e = .ok st →
        get_concert_from_event tzdb uuid e =
          .ok { id := uuid, title := tpf.1, format := tpf.2.2,
                jpy_price := tpf.2.1, platform := p,
                description := remove_form_link_from_description_and_trim d,
                start_time := st,
                image_url := (get_image_url_from_event e).toOption,
                twitter_url := (get_twitter_url_from_description
                  (remove_form_link_from_description_and_trim d)).toOption,
                youtube_link := (get_youtube_link_from_description
                  (remove_form_link_from_description_and_trim d)).toOption,
                ticket_link := (get_ticket_link_from_description
                  (remove_form_link_from_description_and_trim d)).toOption,
                official_link := (get_official_link_from_description
                  (remove_form_link_from_description_and_trim d)).toOption }) := by
  refine ⟨?_, ?_, ?_, ?_, ?_⟩
  · intro tzdb uuid e h
    simp [get_concert_from_event, h]
  · intro tzdb uuid e s hs hc
    simp [get_concert_from_event, hs, hc]
  · intro tzdb uuid e s c tpf p hs hc htpf hp hd
    simp [get_concert_from_event, hs, hc, htpf, hp, hd]
  · intro tzdb uuid e s c tpf p d hs hc htpf hp hd hst
    have h0 : get_start_time_from_event tzdb e = .err startTimeErrMsg := by
      simp [get_start_time_from_event, hst]
    simp [get_concert_from_event, hs, hc, htpf, hp, hd, h0]
  · intro tzdb uuid e s c tpf p d st hs hc htpf hp hd hst
    simp [get_concert_from_event, hs, hc, htpf, hp, hd, hst]

/-- A well-formed event exercising the Aggregator's success path. -/
def sampleEvent : Event :=
  { summary := some ("(Free)(🌐)Concert X".data),
    categories := some ("SPWN".data),
    description := some
      ("Ticket link: https://www.zan-live.com/en/live/detail/1 y\\n".data),
    attach := none,
    start := some (.dateTime (.utc 1700000042)) }

/-- Witness for the C8 theorem: a missing summary fails naming the field, and
the sample event aggregates successfully with the extractor results demoted
to options. -/
theorem aggregator_error_policy_witness :
    get_concert_from_event emptyTzdb 7 (mkStartEvent none) =
      .err ("failed to get summary".data) ∧
    get_concert_from_event emptyTzdb 7 sampleEvent =
      .ok { id := 7, title := "Concert X".data, format := .Online,
            jpy_price := .Free, platform := .Spwn,
            description := remove_form_link_from_description_and_trim
              ("Ticket link: https://www.zan-live.com/en/live/detail/1 y\\n".data),
            start_time := 1700000042,
            image_url := (get_image_url_from_event sampleEvent).toOption,
            twitter_url := (get_twitter_url_from_description
              (remove_form_link_from_description_and_trim
                ("Ticket link: https://www.zan-live.com/en/live/detail/1 y\\n".data))).toOption,
            youtube_link := (get_youtube_link_from_description
              (remove_form_link_from_description_and_trim
                ("Ticket link: https://www.zan-live.com/en/live/detail/1 y\\n".data))).toOption,
            ticket_link := (get_ticket_link_from_description
              (remove_form_link_from_description_and_trim
                ("Ticket link: https://www.zan-live.com/en/live/detail/1 y\\n".data))).toOption,
            official_link := (get_official_link_from_description
              (remove_form_link_from_description_and_trim
                ("Ticket link: https://www.zan-live.com/en/live/detail/1 y\\n".data))).toOption } :=
  ⟨aggregator_error_policy.1 emptyTzdb 7 (mkStartEvent none) rfl,
   aggregator_error_policy.2.2.2.2 emptyTzdb 7 sampleEvent
     ("(Free)(🌐)Concert X".data) ("SPWN".data)
     ("Concert X".data, .Free, .Online) .Spwn
     ("Ticket link: https://www.zan-live.com/en/live/detail/1 y\\n".data)
     1700000042 rfl rfl (by decide) (by decide) rfl rfl⟩

end HoloWtfApi
